import Mathlib

/-!
Shallow embedding of the core logic of `src/app.py` (PSUR analytics dashboard):
the resilient query executor with transient-fault retry (lines 311-385) and the
deterministic risk-classification pipeline (lines 1740-2227).

Modelling conventions:
- Python strings are Lean `String`; a pandas missing value (NaN / pd.NA) is
  `none` in an `Option String`.
- Python's substring operator `needle in haystack` is `strContains haystack
  needle`, computed over the character lists.
- Python floats that carry event rates are modelled as `ℚ`; the only float
  operations the embedded code performs on them are order comparisons against
  the fixed threshold constants 1e-3 .. 1e-7, whose rational values are used
  exactly.
- The database/network boundary of the executor is an oracle `Nat →
  AttemptOutcome` giving, for each loop iteration, what the probe/reconnect and
  query execution would observe on that attempt.
-/

namespace PsurDash

/-- Python substring test helper: does `haystack` start with `needle`?
(character-list version of `str.startswith`). -/
def startsWithChars : List Char → List Char → Bool
  | [], _ => true
  | _ :: _, [] => false
  | a :: as, b :: bs => a == b && startsWithChars as bs

/-- Character-list containment: `containsChars needle hs` is true iff `needle`
occurs contiguously inside `hs` (Python `needle in haystack`). -/
def containsChars (needle : List Char) : List Char → Bool
  | [] => startsWithChars needle []
  | c :: rest => startsWithChars needle (c :: rest) || containsChars needle rest

/-- Python's `needle in haystack` on strings. -/
def strContains (haystack needle : String) : Bool :=
  containsChars needle.data haystack.data

/-- Source line 25: `MAX_RETRIES = 3`. -/
def MAX_RETRIES : Nat := 3

/-- Source line 26: `RETRY_DELAY_SECONDS = 2`. -/
def RETRY_DELAY_SECONDS : Nat := 2

/-- Source lines 348-358: the fixed list of transient/recoverable error
signatures (all stored lowercase, including the ODBC state codes). -/
def transient_errors : List String :=
  ["communication link failure",
   "connection was closed",
   "connection is broken",
   "login timeout",
   "timeout expired",
   "server is not responding",
   "08s01",
   "08003",
   "08007"]

/-- Python `str.lower()`, character by character (the error strings and
signatures involved are ASCII, where `Char.toLower` agrees with Python). -/
def strLower (s : String) : String :=
  String.mk (s.data.map Char.toLower)

/-- Source lines 345-360: `error_str = str(e).lower()` followed by
`any(err in error_str for err in transient_errors)`. -/
def is_transient (error_str : String) : Bool :=
  transient_errors.any (fun err => strContains (strLower error_str) err)

/-- FaultClass enumeration from the spec data model: {Transient, Fatal}. -/
inductive FaultClass
  | Transient
  | Fatal
  deriving DecidableEq

/-- The transient-fault classifier: derived from the branch at source line 362
(`if is_transient ... else ...`), which retries exactly when the failure text
matches a transient signature. -/
def classify_fault (error_str : String) : FaultClass :=
  if is_transient error_str then FaultClass.Transient else FaultClass.Fatal

/-- What the environment does on one iteration of the retry loop:
`reconnectFail` is the path at lines 332-337 (dead connection and
`reconnect_to_database()` returned `None`); `success rows` is `pd.read_sql`
returning a DataFrame (line 340-341); `failure err` is an exception whose
string form is `err` (line 343). -/
inductive AttemptOutcome
  | reconnectFail
  | success (rows : List String)
  | failure (err : String)

/-- Terminal result of `execute_query_with_retry`: either the rows of a
successful query, or exhaustion, carrying the attempt count and last error
reported by the `st.error` message at line 374
(`Error executing query after {max_retries} attempts: {last_error}`). -/
inductive ExecResult
  | ok (rows : List String)
  | exhausted (reported_attempts : Nat) (last_error : Option String)
  deriving DecidableEq

/-- Observable trace of one `execute_query_with_retry` call: the terminal
result, the number of loop iterations actually entered, and the backoff
delays slept (in order), from `time.sleep(RETRY_DELAY_SECONDS * (attempt+1))`
at lines 336 and 363-365. -/
structure ExecTrace where
  result : ExecResult
  attempts : Nat
  delays : List Nat
  deriving DecidableEq

/-- The retry loop of `execute_query_with_retry` (source lines 329-371),
`for attempt in range(max_retries)`, with `fuel` the number of iterations
remaining (`fuel = max_retries - attempt`).  On `reconnectFail` it sleeps the
backoff and continues (lines 335-337); on success it returns the rows
(line 341); on failure it retries after a backoff exactly when the error is
transient and `attempt < max_retries - 1` (lines 362-368), otherwise it breaks
(lines 369-371) and falls through to the exhaustion report (lines 373-385). -/
def execLoop (oc : Nat → AttemptOutcome) (max_retries : Nat) :
    Nat → Nat → Option String → List Nat → ExecTrace
  | 0, attempt, last_error, delays =>
      ⟨ExecResult.exhausted max_retries last_error, attempt, delays⟩
  | fuel + 1, attempt, last_error, delays =>
      match oc attempt with
      | AttemptOutcome.reconnectFail =>
          execLoop oc max_retries fuel (attempt + 1) last_error
            (delays ++ [RETRY_DELAY_SECONDS * (attempt + 1)])
      | AttemptOutcome.success rows =>
          ⟨ExecResult.ok rows, attempt + 1, delays⟩
      | AttemptOutcome.failure err =>
          if is_transient err = true ∧ attempt < max_retries - 1 then
            execLoop oc max_retries fuel (attempt + 1) (some err)
              (delays ++ [RETRY_DELAY_SECONDS * (attempt + 1)])
          else
            ⟨ExecResult.exhausted max_retries (some err), attempt + 1, delays⟩

/-- Source lines 311-385: `execute_query_with_retry(query)` with the default
budget `max_retries = MAX_RETRIES`, starting at attempt 0 with no recorded
error and no sleeps. -/
def execute_query_with_retry (oc : Nat → AttemptOutcome) : ExecTrace :=
  execLoop oc MAX_RETRIES MAX_RETRIES 0 none []

/-- The pandas DataFrame the caller receives: the rows on success, and the
empty DataFrame (`return pd.DataFrame()`, line 385) on exhaustion. -/
def query_result_df (t : ExecTrace) : List String :=
  match t.result with
  | ExecResult.ok rows => rows
  | ExecResult.exhausted _ _ => []

/-- Pandas `pd.isna` on an optional scalar: true exactly on a missing value. -/
def pdIsna : Option String → Bool
  | none => true
  | some _ => false

/-- Source line 1760: the Arterion product group roster. -/
def arterion_products : List String :=
  ["Arterion", "Avanta", "MRXP", "ProVis", "Salient", "Vistron Plus"]

/-- Source lines 1761-1762: the Centargo product group roster. -/
def centargo_products : List String :=
  ["Centargo", "Envision", "Vistron", "Intego", "SSEP", "Stellant",
   "Stellant Flex", "Stellant MP", "Universal Disposables"]

/-- Source line 1765: `any(prod in product_line for prod in arterion_products)`. -/
def is_arterion (product_line : String) : Bool :=
  arterion_products.any (fun prod => strContains product_line prod)

/-- Source line 1768: `any(prod in product_line for prod in centargo_products)`. -/
def is_centargo (product_line : String) : Bool :=
  centargo_products.any (fun prod => strContains product_line prod)

/-- Source lines 1740-1805: `get_p1_classification(p1_numeric, product_line)`,
the frequency classifier.  The float thresholds 1e-3 .. 1e-7 are embedded as
the exact rationals they denote; all the code does with them is strict `>`
comparison against the rate. -/
def get_p1_classification (p1_numeric : ℚ) (product_line : String) : String :=
  if is_arterion product_line then
    if p1_numeric > 1 / 1000 then "Frequent"
    else if p1_numeric > 1 / 10000 then "Probable"
    else if p1_numeric > 1 / 100000 then "Occasional"
    else if p1_numeric > 1 / 1000000 then "Remote"
    else "Improbable"
  else if is_centargo product_line then
    if p1_numeric > 1 / 10000 then "Frequent"
    else if p1_numeric > 1 / 100000 then "Probable"
    else if p1_numeric > 1 / 1000000 then "Occasional"
    else if p1_numeric > 1 / 10000000 then "Remote"
    else "Improbable"
  else
    if p1_numeric > 1 / 10000 then "Frequent"
    else if p1_numeric > 1 / 100000 then "Probable"
    else if p1_numeric > 1 / 1000000 then "Occasional"
    else if p1_numeric > 1 / 10000000 then "Remote"
    else "Improbable"

/-- Ordinal rank of a frequency class, Improbable < Remote < Occasional <
Probable < Frequent (spec data model; used to state monotonicity). -/
def freqRank : String → Nat
  | "Remote" => 1
  | "Occasional" => 2
  | "Probable" => 3
  | "Frequent" => 4
  | _ => 0

/-- The five-value frequency-class vocabulary, in ordinal order. -/
def frequencyClasses : List String :=
  ["Improbable", "Remote", "Occasional", "Probable", "Frequent"]

/-- Source lines 1874-1925: `get_probability_of_occurrence_of_harm(p1_prob,
p2)`.  Inputs are optional strings (`none` = pandas NaN); the result is the
plain string the Python function returns. -/
def get_probability_of_occurrence_of_harm (p1_prob p2 : Option String) : String :=
  if pdIsna p2 || p2 == some "N/A" || p2 == some "" then "N/A"
  else if pdIsna p1_prob || p1_prob == some "" || p1_prob == some "N/A" then "N/A"
  else if p1_prob == some "Improbable" then "Improbable"
  else if p1_prob == some "Remote" then
    if p2 == some "Certain" || p2 == some "Likely" then "Remote"
    else if p2 == some "Possible" || p2 == some "Unlikely" || p2 == some "Will Not Occur" then
      "Improbable"
    else "Error"
  else if p1_prob == some "Occasional" then
    if p2 == some "Certain" then "Occasional"
    else if p2 == some "Likely" || p2 == some "Possible" then "Remote"
    else if p2 == some "Unlikely" || p2 == some "Will Not Occur" then "Improbable"
    else "Error"
  else if p1_prob == some "Probable" then
    if p2 == some "Certain" then "Probable"
    else if p2 == some "Likely" || p2 == some "Possible" then "Occasional"
    else if p2 == some "Unlikely" then "Remote"
    else if p2 == some "Will Not Occur" then "Improbable"
    else "Error"
  else if p1_prob == some "Frequent" then
    if p2 == some "Certain" then "Frequent"
    else if p2 == some "Likely" then "Probable"
    else if p2 == some "Possible" then "Occasional"
    else if p2 == some "Unlikely" then "Remote"
    else if p2 == some "Will Not Occur" then "Improbable"
    else "Error"
  else "Error"

/-- Source lines 1927-1985: `get_risk_level(p1_prob, severity,
prob_occurrence_harm)`.  All three inputs are optional strings (`none` =
pandas NaN); the result is the plain string the Python function returns. -/
def get_risk_level (p1_prob severity prob_occurrence_harm : Option String) : String :=
  if p1_prob == some "Error" then "Error"
  else if pdIsna severity || severity == some "" then ""
  else if severity == some "NAHC" then "N/A"
  else if severity == some "No Safety Impact" then "N/A"
  else if prob_occurrence_harm == some "N/A" || pdIsna prob_occurrence_harm
          || prob_occurrence_harm == some "" then "N/A"
  else if severity == some "Negligible" then
    if prob_occurrence_harm == some "Frequent" then "Medium" else "Low"
  else if severity == some "Minor" then
    if prob_occurrence_harm == some "Frequent" then "High"
    else if prob_occurrence_harm == some "Probable" || prob_occurrence_harm == some "Occasional" then
      "Medium"
    else "Low"
  else if severity == some "Moderate" then
    if prob_occurrence_harm == some "Occasional" || prob_occurrence_harm == some "Remote" then
      "Medium"
    else if prob_occurrence_harm == some "Improbable" then "Low"
    else "High"
  else if severity == some "Critical" then
    if prob_occurrence_harm == some "Remote" then "Medium"
    else if prob_occurrence_harm == some "Improbable" then "Low"
    else "High"
  else if severity == some "Catastrophic" then
    if prob_occurrence_harm == some "Improbable" then "Medium"
    else "High"
  else "High"

/-- Source lines 2183-2201: `get_p2_for_row(row)`.  The `p2_lookup` dictionary
(built by `get_p2_lookup_values`, lines 1807-1872, already restricted to the
product's HHI references) is modelled as an association list from
`(hazard?, severity)` keys — `none` hazard is the fallback key stored for
blank/NaN hazards — to the stored P2 value, which may itself be missing.
Tries the exact `(hazard, severity)` key, then the `(None, severity)` key,
then defaults: `Negligible` ↦ `'Likely'`, the four named severities ↦
`'N/A'`, anything else ↦ `'N/A'`. -/
def get_p2_for_row (p2_lookup : List ((Option String × String) × Option String))
    (hazard severity : String) : Option String :=
  match p2_lookup.lookup (some hazard, severity) with
  | some v => v
  | none =>
    match p2_lookup.lookup (none, severity) with
    | some v => v
    | none =>
      if severity == "Negligible" then some "Likely"
      else if severity == "Minor" || severity == "Moderate" || severity == "Critical"
              || severity == "Catastrophic" then some "N/A"
      else some "N/A"

/-- One grouped complaint row as returned by `get_risk_calculation_data`
(source lines 2013-2066): object/error codes, hazard, severity (either may be
missing or blank), and the complaint count. -/
structure RiskRow where
  object_code : String
  error_code : String
  hazard : Option String
  severity : Option String
  total_complaints : Nat
  deriving DecidableEq

/-- Pandas `fillna('').astype(str)` on an optional scalar (lines 2162-2163). -/
def fillnaStr : Option String → String
  | none => ""
  | some v => v

/-- Pandas `.replace('', pd.NA)` on an optional scalar (lines 2206-2207). -/
def replaceEmptyNA : Option String → Option String
  | none => none
  | some v => if v == "" then none else some v

/-- One row of the final risk table (columns computed at lines 2147-2227). -/
structure RiskAssessment where
  p1 : ℚ
  p1_class : String
  p2 : Option String
  harm : String
  risk_level : String
  product_line : String
  deriving DecidableEq

/-- Per-row computation of the Risk Calculation tab (source lines 2147-2227):
rate `P1 = Total_Complaints / total_procedures` and its classification when
`total_procedures > 0`, otherwise `P1 = 0` and class `'N/A'` (lines
2149-2156); P2 via `get_p2_for_row` on the cleaned hazard/severity (lines
2162-2203); harm probability from the P1 class and P2 (lines 2210-2215); risk
level from the P1 class, the severity with blanks restored to NA, and the
harm probability (lines 2206-2224); product-line tag attached (line 2227). -/
def process_risk_row (total_procedures : Nat) (product_line : String)
    (p2_lookup : List ((Option String × String) × Option String))
    (row : RiskRow) : RiskAssessment :=
  let p1 : ℚ :=
    if total_procedures > 0 then (row.total_complaints : ℚ) / (total_procedures : ℚ) else 0
  let p1_class : String :=
    if total_procedures > 0 then get_p1_classification p1 product_line else "N/A"
  let hazard_clean := fillnaStr row.hazard
  let severity_clean := fillnaStr row.severity
  let p2 := get_p2_for_row p2_lookup hazard_clean severity_clean
  let harm := get_probability_of_occurrence_of_harm (some p1_class) p2
  let risk := get_risk_level (some p1_class) (replaceEmptyNA row.severity) (some harm)
  ⟨p1, p1_class, p2, harm, risk, product_line⟩

/-- The Risk Calculation batch (source lines 2147-2227): every row of
`risk_data` is mapped through the per-row computation, preserving order. -/
def risk_calculation_pipeline (total_procedures : Nat) (product_line : String)
    (p2_lookup : List ((Option String × String) × Option String))
    (rows : List RiskRow) : List RiskAssessment :=
  rows.map (process_risk_row total_procedures product_line p2_lookup)

/-! ## Theorems for the claims -/

/-- Helper: every stored transient signature is already lowercase, so matching
against the lowercased failure text is a case-insensitive match. -/
lemma transient_signatures_lowercase :
    ∀ sig ∈ transient_errors, strLower sig = sig := by decide

/-- Helper: membership form of the transient classification. -/
lemma is_transient_iff (msg : String) :
    is_transient msg = true
      ↔ ∃ sig ∈ transient_errors, strContains (strLower msg) (strLower sig) = true := by
  unfold is_transient
  rw [List.any_eq_true]
  constructor
  · rintro ⟨sig, hs, hc⟩
    exact ⟨sig, hs, by rw [transient_signatures_lowercase sig hs]; exact hc⟩
  · rintro ⟨sig, hs, hc⟩
    refine ⟨sig, hs, ?_⟩
    rw [transient_signatures_lowercase sig hs] at hc
    exact hc

/-- C9: a failure whose text contains a known transient signature
(case-insensitively, i.e. after lowercasing both sides) is classified
Transient; any other failure is classified Fatal; and every failure falls in
exactly one of the two classes. -/
theorem c9_transient_fault_classifier (msg : String) :
    ((∃ sig ∈ transient_errors, strContains (strLower msg) (strLower sig) = true) →
        classify_fault msg = FaultClass.Transient)
    ∧ ((¬ ∃ sig ∈ transient_errors, strContains (strLower msg) (strLower sig) = true) →
        classify_fault msg = FaultClass.Fatal)
    ∧ (classify_fault msg = FaultClass.Transient ∨ classify_fault msg = FaultClass.Fatal)
    ∧ ¬(classify_fault msg = FaultClass.Transient ∧ classify_fault msg = FaultClass.Fatal) := by
  refine ⟨?_, ?_, ?_, ?_⟩
  · intro h
    simp [classify_fault, (is_transient_iff msg).mpr h]
  · intro h
    have hf : is_transient msg = false := by
      rcases Bool.eq_false_or_eq_true (is_transient msg) with hb | hb
      · exact absurd ((is_transient_iff msg).mp hb) h
      · exact hb
    simp [classify_fault, hf]
  · rcases Bool.eq_false_or_eq_true (is_transient msg) with hb | hb
    · left; simp [classify_fault, hb]
    · right; simp [classify_fault, hb]
  · rintro ⟨h1, h2⟩
    exact FaultClass.noConfusion (h1 ▸ h2)

/-- Witness for C9: a communication-link failure (uppercase in the message) is
Transient, a syntax error is Fatal. -/
theorem c9_transient_fault_classifier_witness :
    classify_fault "ERROR [08S01] Communication link failure" = FaultClass.Transient
    ∧ classify_fault "Incorrect syntax near SELECT" = FaultClass.Fatal :=
  ⟨(c9_transient_fault_classifier "ERROR [08S01] Communication link failure").1 (by decide),
   (c9_transient_fault_classifier "Incorrect syntax near SELECT").2.1 (by decide)⟩

/-- C1: with the fixed budget `MAX_RETRIES = 3`: a run that fails transiently
exactly `k` times (`k < 3`) and then succeeds returns the rows after `k + 1`
attempts; a run whose three attempts all fail transiently stops after exactly
3 attempts and surfaces exhaustion carrying the attempt count and the last
error, having slept strictly increasing backoff delays (one between each pair
of consecutive attempts). -/
theorem c1_resilient_executor_retry_budget
    (oc1 oc2 : Nat → AttemptOutcome) (k : Nat) (rows : List String) (e0 e1 e2 : String)
    (hk : k < MAX_RETRIES)
    (hfail : ∀ i, i < k → ∃ e, oc1 i = AttemptOutcome.failure e ∧ is_transient e = true)
    (hsucc : oc1 k = AttemptOutcome.success rows)
    (h0 : oc2 0 = AttemptOutcome.failure e0) (t0 : is_transient e0 = true)
    (h1 : oc2 1 = AttemptOutcome.failure e1) (t1 : is_transient e1 = true)
    (h2 : oc2 2 = AttemptOutcome.failure e2) (t2 : is_transient e2 = true) :
    ((execute_query_with_retry oc1).result = ExecResult.ok rows
      ∧ (execute_query_with_retry oc1).attempts = k + 1)
    ∧ ((execute_query_with_retry oc2).result = ExecResult.exhausted MAX_RETRIES (some e2)
      ∧ (execute_query_with_retry oc2).attempts = MAX_RETRIES
      ∧ List.Chain' (fun a b => a < b) (execute_query_with_retry oc2).delays
      ∧ (execute_query_with_retry oc2).delays.length = MAX_RETRIES - 1) := by
  constructor
  · have hk3 : k < 3 := hk
    interval_cases k
    · simp [execute_query_with_retry, execLoop, MAX_RETRIES, hsucc]
    · obtain ⟨a0, ha0, hta0⟩ := hfail 0 (by norm_num)
      simp [execute_query_with_retry, execLoop, MAX_RETRIES, RETRY_DELAY_SECONDS,
        ha0, hta0, hsucc]
    · obtain ⟨a0, ha0, hta0⟩ := hfail 0 (by norm_num)
      obtain ⟨a1, ha1, hta1⟩ := hfail 1 (by norm_num)
      simp [execute_query_with_retry, execLoop, MAX_RETRIES, RETRY_DELAY_SECONDS,
        ha0, hta0, ha1, hta1, hsucc]
  · simp [execute_query_with_retry, execLoop, MAX_RETRIES, RETRY_DELAY_SECONDS,
      h0, t0, h1, t1, h2, t2]

/-- Witness for C1: one transient failure then success gives the rows in 2
attempts; three transient failures exhaust the budget with delays 2 s then
4 s. -/
theorem c1_resilient_executor_retry_budget_witness :
    ((execute_query_with_retry
        (fun i => if i = 0 then AttemptOutcome.failure "timeout expired"
                  else AttemptOutcome.success ["r1"])).result = ExecResult.ok ["r1"])
    ∧ ((execute_query_with_retry
        (fun _ => AttemptOutcome.failure "timeout expired")).result
          = ExecResult.exhausted MAX_RETRIES (some "timeout expired")) := by
  have h := c1_resilient_executor_retry_budget
      (fun i => if i = 0 then AttemptOutcome.failure "timeout expired"
                else AttemptOutcome.success ["r1"])
      (fun _ => AttemptOutcome.failure "timeout expired")
      1 ["r1"] "timeout expired" "timeout expired" "timeout expired"
      (by decide)
      (by intro i hi
          refine ⟨"timeout expired", ?_, by decide⟩
          interval_cases i
          · rfl)
      rfl rfl (by decide) rfl (by decide) rfl (by decide)
  exact ⟨h.1.1, h.2.1⟩

/-- C10: the resilient executor is a total function into DataFrames: whenever
it terminates exhausted (fatal fault or spent budget) the caller receives the
empty DataFrame, every run yields either the successful rows or that empty
DataFrame, and the empty DataFrame is exactly what a successful query that
matched zero rows returns — so the call site cannot distinguish the two. -/
theorem c10_failure_returns_empty_df (oc : Nat → AttemptOutcome) :
    (∀ n le, (execute_query_with_retry oc).result = ExecResult.exhausted n le →
        query_result_df (execute_query_with_retry oc) = [])
    ∧ ((∃ rows, (execute_query_with_retry oc).result = ExecResult.ok rows
            ∧ query_result_df (execute_query_with_retry oc) = rows)
        ∨ (∃ n le, (execute_query_with_retry oc).result = ExecResult.exhausted n le
            ∧ query_result_df (execute_query_with_retry oc) = []))
    ∧ query_result_df (execute_query_with_retry (fun _ => AttemptOutcome.success [])) = [] := by
  refine ⟨?_, ?_, rfl⟩
  · intro n le h
    simp [query_result_df, h]
  · cases h : (execute_query_with_retry oc).result with
    | ok rows => exact Or.inl ⟨rows, rfl, by simp [query_result_df, h]⟩
    | exhausted n le => exact Or.inr ⟨n, le, rfl, by simp [query_result_df, h]⟩

/-- Witness for C10: a fatal fault on the first attempt yields the empty
DataFrame. -/
theorem c10_failure_returns_empty_df_witness :
    query_result_df (execute_query_with_retry (fun _ => AttemptOutcome.failure "bad sql")) = [] :=
  (c10_failure_returns_empty_df (fun _ => AttemptOutcome.failure "bad sql")).1
    MAX_RETRIES (some "bad sql") (by decide)

/-- Counterexample to C2 as stated: the combiner checks P2 for Unknown before
it checks P1 for Improbable, so `combine(Improbable, Unknown)` is Unknown
(`'N/A'`), not Improbable. -/
theorem c2_counterexample :
    get_probability_of_occurrence_of_harm (some "Improbable") none = "N/A"
    ∧ ("N/A" : String) ≠ "Improbable" := by decide

/-- C2 (amended): `combine(Improbable, p2)` is Improbable for every P2 other
than Unknown (missing, `''`, or `'N/A'`); and `combine(p1, Unknown)` is
Unknown for every P1. -/
theorem c2_combiner_improbable_unknown_amended
    (p1 p2 q2 : Option String)
    (h1 : p2 ≠ none) (h2 : p2 ≠ some "N/A") (h3 : p2 ≠ some "")
    (h4 : q2 = none ∨ q2 = some "N/A" ∨ q2 = some "") :
    get_probability_of_occurrence_of_harm (some "Improbable") p2 = "Improbable"
    ∧ get_probability_of_occurrence_of_harm p1 q2 = "N/A" := by
  obtain ⟨v, rfl⟩ := Option.ne_none_iff_exists'.mp h1
  have hv2 : v ≠ "N/A" := fun h => h2 (by rw [h])
  have hv3 : v ≠ "" := fun h => h3 (by rw [h])
  constructor
  · simp [get_probability_of_occurrence_of_harm, pdIsna, hv2, hv3]
  · rcases h4 with rfl | rfl | rfl <;> simp [get_probability_of_occurrence_of_harm, pdIsna]

/-- Witness for C2 (amended), at P2 = Certain and a missing Unknown input. -/
theorem c2_combiner_improbable_unknown_amended_witness :
    get_probability_of_occurrence_of_harm (some "Improbable") (some "Certain") = "Improbable"
    ∧ get_probability_of_occurrence_of_harm (some "Frequent") none = "N/A" :=
  c2_combiner_improbable_unknown_amended (some "Frequent") (some "Certain") none
    (by decide) (by decide) (by decide) (Or.inl rfl)

/-- Counterexample to C4 as stated: a P2 outside the closed vocabulary (and
not a missing/Unknown marker) makes the combiner return the flagged value
`'Error'`, not Unknown (`'N/A'`). -/
theorem c4_counterexample :
    get_probability_of_occurrence_of_harm (some "Remote") (some "Sometimes") = "Error"
    ∧ ("Error" : String) ≠ "N/A" := by decide

/-- C4 (amended): when P1 or P2 is missing (NaN, `''`, or `'N/A'`) the
combiner returns Unknown (`'N/A'`); when P1 is one of the non-Improbable
frequency classes and P2 is a non-missing value outside the closed vocabulary
{Certain, Likely, Possible, Unlikely, Will Not Occur}, it returns the flagged
value `'Error'` instead, and (being a total function) it never crashes. -/
theorem c4_combiner_vocabulary_amended
    (p1 p2 q1 q2 : Option String)
    (hmiss : p1 = none ∨ p1 = some "" ∨ p1 = some "N/A"
      ∨ p2 = none ∨ p2 = some "" ∨ p2 = some "N/A")
    (hq1 : q1 = some "Remote" ∨ q1 = some "Occasional"
      ∨ q1 = some "Probable" ∨ q1 = some "Frequent")
    (hq2 : q2 ≠ some "Certain" ∧ q2 ≠ some "Likely" ∧ q2 ≠ some "Possible"
      ∧ q2 ≠ some "Unlikely" ∧ q2 ≠ some "Will Not Occur"
      ∧ q2 ≠ none ∧ q2 ≠ some "" ∧ q2 ≠ some "N/A") :
    get_probability_of_occurrence_of_harm p1 p2 = "N/A"
    ∧ get_probability_of_occurrence_of_harm q1 q2 = "Error" := by
  obtain ⟨hA, hB, hC, hD, hE, hF, hG, hH⟩ := hq2
  obtain ⟨w, rfl⟩ := Option.ne_none_iff_exists'.mp hF
  have hwA : w ≠ "Certain" := fun h => hA (by rw [h])
  have hwB : w ≠ "Likely" := fun h => hB (by rw [h])
  have hwC : w ≠ "Possible" := fun h => hC (by rw [h])
  have hwD : w ≠ "Unlikely" := fun h => hD (by rw [h])
  have hwE : w ≠ "Will Not Occur" := fun h => hE (by rw [h])
  have hwG : w ≠ "" := fun h => hG (by rw [h])
  have hwH : w ≠ "N/A" := fun h => hH (by rw [h])
  constructor
  · rcases hmiss with rfl | rfl | rfl | rfl | rfl | rfl <;>
      simp [get_probability_of_occurrence_of_harm, pdIsna]
  · rcases hq1 with rfl | rfl | rfl | rfl <;>
      simp [get_probability_of_occurrence_of_harm, pdIsna,
        hwA, hwB, hwC, hwD, hwE, hwG, hwH]

/-- Witness for C4 (amended), at a missing P1 and at (Remote, Sometimes). -/
theorem c4_combiner_vocabulary_amended_witness :
    get_probability_of_occurrence_of_harm none (some "Certain") = "N/A"
    ∧ get_probability_of_occurrence_of_harm (some "Remote") (some "Sometimes") = "Error" :=
  c4_combiner_vocabulary_amended none (some "Certain") (some "Remote") (some "Sometimes")
    (Or.inl rfl) (Or.inl rfl)
    ⟨by decide, by decide, by decide, by decide, by decide, by decide, by decide, by decide⟩

/-- Counterexample to C5 as stated: Unknown (`'N/A'`) is a non-Improbable
harm-probability value, yet with severity Catastrophic the resolver returns
NotApplicable, not High. -/
theorem c5_counterexample :
    get_risk_level (some "Remote") (some "Catastrophic") (some "N/A") = "N/A"
    ∧ ("N/A" : String) ≠ "High" := by decide

/-- C5 (amended): for every P1 frequency class, the resolver returns
NotApplicable whenever severity is the NotApplicable marker (`'NAHC'`) or
`'No Safety Impact'`, for every harm-probability value including Unknown; for
severity Catastrophic it returns High for every non-Improbable harm
probability other than Unknown, Medium for Improbable, and NotApplicable for
Unknown. -/
theorem c5_risk_resolver_amended :
    (∀ p1 ∈ frequencyClasses, ∀ hp ∈ frequencyClasses ++ ["N/A"],
      ∀ sev ∈ (["NAHC", "No Safety Impact"] : List String),
        get_risk_level (some p1) (some sev) (some hp) = "N/A")
    ∧ (∀ p1 ∈ frequencyClasses, ∀ hp ∈ frequencyClasses,
        hp ≠ "Improbable" → get_risk_level (some p1) (some "Catastrophic") (some hp) = "High")
    ∧ (∀ p1 ∈ frequencyClasses,
        get_risk_level (some p1) (some "Catastrophic") (some "Improbable") = "Medium"
        ∧ get_risk_level (some p1) (some "Catastrophic") (some "N/A") = "N/A") := by
  decide

/-- Witness for C5 (amended), at P1 = Remote, harm probability Frequent. -/
theorem c5_risk_resolver_amended_witness :
    get_risk_level (some "Remote") (some "NAHC") (some "Frequent") = "N/A"
    ∧ get_risk_level (some "Remote") (some "Catastrophic") (some "Frequent") = "High" :=
  ⟨c5_risk_resolver_amended.1 "Remote" (by decide) "Frequent" (by decide) "NAHC" (by decide),
   c5_risk_resolver_amended.2.1 "Remote" (by decide) "Frequent" (by decide) (by decide)⟩

/-- Counterexample to C3 as stated: with no match under either key, severity
Negligible yields the likelihood `'Likely'`, not Unknown (`'N/A'`). -/
theorem c3_counterexample :
    List.lookup ((some "H" : Option String), "Negligible")
        ([] : List ((Option String × String) × Option String)) = none
    ∧ List.lookup ((none : Option String), "Negligible")
        ([] : List ((Option String × String) × Option String)) = none
    ∧ get_p2_for_row [] "H" "Negligible" = some "Likely"
    ∧ (some "Likely" : Option String) ≠ some "N/A" := by decide

/-- C3 (amended): when the primary `(hazard, severity)` key and the secondary
`(None, severity)` key both miss, the lookup never raises and returns Unknown
(`'N/A'`) for every severity except Negligible, which instead defaults to the
likelihood `'Likely'`. -/
theorem c3_p2_lookup_fallback_amended
    (tbl : List ((Option String × String) × Option String)) (hazard severity : String)
    (hmain : tbl.lookup (some hazard, severity) = none)
    (hsec : tbl.lookup (none, severity) = none) :
    get_p2_for_row tbl hazard severity
      = (if severity == "Negligible" then some "Likely" else some "N/A") := by
  simp only [get_p2_for_row, hmain, hsec]
  by_cases h : severity == "Negligible"
  · simp [h]
  · simp [h]

/-- Witness for C3 (amended), at the empty table and severity Minor. -/
theorem c3_p2_lookup_fallback_amended_witness :
    get_p2_for_row [] "H" "Minor" = some "N/A" := by
  have h := c3_p2_lookup_fallback_amended [] "H" "Minor" rfl rfl
  simpa using h

/-- Helper: with P1 class `'N/A'` the harm-probability combiner returns
`'N/A'` no matter what P2 is. -/
lemma harm_na_of_p1_na (p2 : Option String) :
    get_probability_of_occurrence_of_harm (some "N/A") p2 = "N/A" := by
  simp [get_probability_of_occurrence_of_harm, pdIsna]

/-- Helper: with P1 class `'N/A'`, harm `'N/A'` and a present non-empty
severity, the risk level is `'N/A'`. -/
lemma risk_level_na_of_harm_na (v : String) (hv : v ≠ "") :
    get_risk_level (some "N/A") (some v) (some "N/A") = "N/A" := by
  simp [get_risk_level, pdIsna, hv]

/-- Counterexample to C6 as stated: with `totalProcedures = 0`, a batch
containing a row whose severity is missing gets risk level `''` (the empty
marker from the blank-severity branch), not NotApplicable (`'N/A'`). -/
theorem c6_counterexample :
    (risk_calculation_pipeline 0 "Centargo" []
        [⟨"O1", "E1", none, none, 5⟩]).map RiskAssessment.risk_level = [""]
    ∧ ("" : String) ≠ "N/A" := by decide

/-- C6 (amended): with `totalProcedures = 0` the batch still returns one
result per row in order (never raising): every row gets rate `P1 = 0`, P1
class Unknown (`'N/A'`), harm probability `'N/A'`, and risk level `'N/A'`
whenever the row's severity is present and non-blank — while a row with
missing or blank severity gets the empty-string risk marker `''` instead of
`'N/A'`. -/
theorem c6_zero_procedures_amended
    (product_line : String) (p2_lookup : List ((Option String × String) × Option String))
    (rows : List RiskRow) (row : RiskRow) (hrow : row ∈ rows) :
    (risk_calculation_pipeline 0 product_line p2_lookup rows).length = rows.length
    ∧ process_risk_row 0 product_line p2_lookup row
        ∈ risk_calculation_pipeline 0 product_line p2_lookup rows
    ∧ (process_risk_row 0 product_line p2_lookup row).p1 = 0
    ∧ (process_risk_row 0 product_line p2_lookup row).p1_class = "N/A"
    ∧ (process_risk_row 0 product_line p2_lookup row).harm = "N/A"
    ∧ (process_risk_row 0 product_line p2_lookup row).risk_level
        = (if replaceEmptyNA row.severity = none then "" else "N/A") := by
  refine ⟨List.length_map rows _, List.mem_map_of_mem _ hrow, ?_, ?_, ?_, ?_⟩
  · simp [process_risk_row]
  · simp [process_risk_row]
  · simp [process_risk_row, harm_na_of_p1_na]
  · rcases hs : row.severity with _ | v
    · simp [process_risk_row, replaceEmptyNA, hs, harm_na_of_p1_na, get_risk_level, pdIsna]
    · by_cases hv : v = ""
      · subst hv
        simp [process_risk_row, replaceEmptyNA, hs, harm_na_of_p1_na, get_risk_level, pdIsna]
      · simp [process_risk_row, replaceEmptyNA, hs, hv, harm_na_of_p1_na,
          risk_level_na_of_harm_na v hv]

/-- Witness for C6 (amended), at a one-row batch with severity Catastrophic. -/
theorem c6_zero_procedures_amended_witness :
    (process_risk_row 0 "Centargo" [] ⟨"O1", "E1", some "HZ", some "Catastrophic", 5⟩).risk_level
      = "N/A" := by
  have h := c6_zero_procedures_amended "Centargo" []
      [⟨"O1", "E1", some "HZ", some "Catastrophic", 5⟩]
      ⟨"O1", "E1", some "HZ", some "Catastrophic", 5⟩ (by decide)
  simpa [replaceEmptyNA] using h.2.2.2.2.2

/-- C7: the frequency classifier is monotone for every fixed product line:
a strictly larger rate never gets a strictly smaller class in the ordinal
order Improbable < Remote < Occasional < Probable < Frequent. -/
theorem c7_p1_classification_monotone (product_line : String) (r1 r2 : ℚ) (h : r2 < r1) :
    freqRank (get_p1_classification r2 product_line)
      ≤ freqRank (get_p1_classification r1 product_line) := by
  unfold get_p1_classification
  rcases Bool.eq_false_or_eq_true (is_arterion product_line) with ha | ha <;>
    rcases Bool.eq_false_or_eq_true (is_centargo product_line) with hc | hc <;>
      simp only [ha, hc, Bool.false_eq_true, if_true, if_false] <;>
        split_ifs <;>
          first
            | decide
            | (exfalso; linarith)

/-- Witness for C7, at rates 1 < 2 on the Centargo product line. -/
theorem c7_p1_classification_monotone_witness :
    freqRank (get_p1_classification 1 "Centargo")
      ≤ freqRank (get_p1_classification 2 "Centargo") :=
  c7_p1_classification_monotone "Centargo" 2 1 (by norm_num)

/-- C8: a rate of 2e-3 on an Arterion-group product line classifies as
Frequent; a rate of 5e-6 on a Centargo-group product line classifies as
Occasional, and indeed every rate strictly above 1e-6 and at most 1e-5 does
(strict `>` against the descending thresholds). -/
theorem c8_p1_classification_thresholds (plA plC : String) (r : ℚ)
    (hA : is_arterion plA = true)
    (hCa : is_arterion plC = false) (hCc : is_centargo plC = true)
    (hlo : 1 / 1000000 < r) (hhi : r ≤ 1 / 100000) :
    get_p1_classification (2 / 1000) plA = "Frequent"
    ∧ get_p1_classification (5 / 1000000) plC = "Occasional"
    ∧ get_p1_classification r plC = "Occasional" := by
  refine ⟨?_, ?_, ?_⟩
  · simp only [get_p1_classification, hA, if_true]
    norm_num
  · simp only [get_p1_classification, hCa, hCc, Bool.false_eq_true, if_false, if_true]
    norm_num
  · simp only [get_p1_classification, hCa, hCc, Bool.false_eq_true, if_false, if_true]
    rw [if_neg (by linarith), if_neg (by linarith), if_pos (by linarith)]

/-- Witness for C8, at the product lines Arterion and Centargo and the rate
5e-6. -/
theorem c8_p1_classification_thresholds_witness :
    get_p1_classification (2 / 1000) "Arterion" = "Frequent"
    ∧ get_p1_classification (5 / 1000000) "Centargo" = "Occasional" := by
  have h := c8_p1_classification_thresholds "Arterion" "Centargo" (5 / 1000000)
      (by decide) (by decide) (by decide) (by norm_num) (by norm_num)
  exact ⟨h.1, h.2.1⟩

end PsurDash
